import Mathlib

/-!
Shallow embedding of the LauncherAdminPanel server code and proofs about it.

Embedded sources:
- `src/shared/schema.ts` : table shapes (nullable columns become `Option`,
  `timestamp` columns become abstract `Nat` instants, `integer` becomes `Int`);
- `src/server/api.ts`    : the `GET /api/distribution` endpoint,
  `transformModsToModules`, and the `DatabaseStorage` operations;
- `src/server/routes.ts` : the `POST /api/stats` handler and the per-connection
  stats WebSocket loop.

The database is modeled as lists of rows plus a serial-id counter; every storage
operation is explicit state passing.  JavaScript `x || d` on nullable values is
modeled by `jsOrStr` / `jsOrInt` (null, the empty string and 0 are falsy), and
`!x` on a nullable boolean by the negation of `jsTruthy`.
-/

namespace LauncherAdmin

/-- Row of the `servers` table (src/shared/schema.ts lines 50-65). -/
structure Server where
  id : Nat
  serverId : String
  name : String
  description : Option String
  icon : Option String
  version : String
  address : Option String
  minecraftVersion : String
  loaderType : String
  loaderVersion : String
  mainServer : Option Bool
  autoconnect : Option Bool
  createdAt : Nat
  updatedAt : Nat
deriving DecidableEq, Repr

/-- Row of the `mods` table (src/shared/schema.ts lines 73-88).  The `required`,
`enabled` and `optionalDefault` columns are nullable booleans (they carry a
default but no NOT NULL constraint), so they are `Option Bool`: `none` models
SQL NULL, which is reachable through the API because the drizzle-zod insert
schema marks the fields `.nullable()`. -/
structure Mod where
  id : Nat
  serverId : String
  modId : String
  name : String
  type : String
  version : Option String
  required : Option Bool
  enabled : Option Bool
  optionalDefault : Option Bool
  size : Option Int
  url : String
  md5 : Option String
  createdAt : Nat
  updatedAt : Nat
deriving DecidableEq, Repr

/-- Row of the `files` table (src/shared/schema.ts lines 116-124). -/
structure File where
  id : Nat
  serverId : String
  path : String
  isDirectory : Option Bool
  isSticky : Option Bool
  size : Option Int
  lastModified : Nat
deriving DecidableEq, Repr

/-- Row of the `server_stats` table (src/shared/schema.ts lines 98-106). -/
structure ServerStat where
  id : Nat
  serverId : String
  activePlayers : Option Int
  currentBandwidth : Option Int
  totalBandwidth : Option Int
  totalSessionTime : Option Int
  timestamp : Nat
deriving DecidableEq, Repr

/-- Row of the `installer_settings` table (src/shared/schema.ts lines 134-142). -/
structure InstallerSetting where
  id : Nat
  isInstalled : Option Bool
  dbHost : Option String
  dbPort : Option String
  dbName : Option String
  dbUser : Option String
  installedAt : Option Nat
deriving DecidableEq, Repr

/-- Row of the `api_config` table (src/shared/schema.ts lines 145-152). -/
structure ApiConfig where
  id : Nat
  rssUrl : Option String
  discordClientId : Option String
  discordSmallImageText : Option String
  discordSmallImageKey : Option String
  version : Option String
deriving DecidableEq, Repr

/-- Row of the `site_settings` table (src/shared/schema.ts lines 155-163). -/
structure SiteSettings where
  id : Nat
  siteName : Option String
  siteUrl : Option String
  logoUrl : Option String
  maintenanceMode : Option Bool
  enableRegistration : Option Bool
  updatedAt : Nat
deriving DecidableEq, Repr

/-- The relational state: one list of rows per table touched by the embedded
operations, plus a single generator for `serial` primary keys. -/
structure Db where
  servers : List Server := []
  mods : List Mod := []
  files : List File := []
  serverStats : List ServerStat := []
  installerSettings : List InstallerSetting := []
  apiConfig : List ApiConfig := []
  siteSettings : List SiteSettings := []
  nextId : Nat := 1
deriving DecidableEq, Repr

/-- JavaScript `a || d` on a nullable string: null and the empty string are falsy. -/
def jsOrStr (a : Option String) (d : String) : String :=
  match a with
  | none => d
  | some s => if s = "" then d else s

/-- JavaScript `a || d` on a nullable integer: null and 0 are falsy. -/
def jsOrInt (a : Option Int) (d : Int) : Int :=
  match a with
  | none => d
  | some n => if n = 0 then d else n

/-- JavaScript truthiness of a nullable boolean (null is falsy). -/
def jsTruthy (a : Option Bool) : Bool := a.getD false

/-- One entry of a server's `modules` array in the distribution manifest
(the JSON objects built in `transformModsToModules`, src/server/api.ts lines
63-104).  `artifactMd5` is the `MD5` key (present on mod entries only),
`artifactPath` is the artifact `path` key (present on file entries only) and
`requiredMarker` is `some false` exactly when the entry carries the JSON marker
`required: { value: false }`; `none` means the key is absent. -/
structure Module where
  id : String
  name : String
  type : String
  artifactSize : Int
  artifactUrl : String
  artifactMd5 : Option String
  artifactPath : Option String
  requiredMarker : Option Bool
deriving DecidableEq, Repr

/-- Embedding of the mod branch of `transformModsToModules` (src/server/api.ts
lines 67-84): the base module produced for one `Mod` row, with the marker field
added exactly when `!mod.required` is true in JavaScript. -/
def modToModule (server : Server) (mod : Mod) : Module :=
  { id := mod.modId
    name := mod.name
    type := if mod.type = "Library" then "Library" else "FabricMod"
    artifactSize := jsOrInt mod.size 0
    artifactUrl := "/uploads/" ++ server.serverId ++ "/mods/" ++ mod.modId
    artifactMd5 := some (jsOrStr mod.md5 "")
    artifactPath := none
    requiredMarker := if jsTruthy mod.required then none else some false }

/-- The module object pushed for one non-directory `File` row
(src/server/api.ts lines 90-99), given the basename value `base`. -/
def fileModule (server : Server) (file : File) (base : String) : Module :=
  { id := base
    name := base
    type := "File"
    artifactSize := jsOrInt file.size 0
    artifactUrl := "/uploads/" ++ server.serverId ++ "/" ++ file.path
    artifactMd5 := none
    artifactPath := some file.path
    requiredMarker := none }

/-- Evaluation of the expression `path.basename(file.path)` at
src/server/api.ts line 91.  The module `api.ts` never imports the node `path`
module: its only imports are express/storage/schema (lines 1-3) and the
storage-layer imports (lines 106-110).  In that module scope the identifier
`path` is unbound, so evaluating `path.basename(...)` throws a ReferenceError,
which we embed as the thrown error value. -/
def apiTsPathBasename (_s : String) : Except String String :=
  Except.error "ReferenceError: path is not defined"

/-- Embedding of `transformModsToModules` (src/server/api.ts lines 63-104):
maps every mod row to a module, then walks the file rows in order, appending a
`File` module for each non-directory row; building that module evaluates the
unbound `path.basename`, so the first non-directory row makes the whole
function throw. -/
def transformModsToModules (mods : List Mod) (server : Server) (files : List File) :
    Except String (List Module) := do
  let modModules := mods.map (modToModule server)
  let fileModules ← files.foldlM
    (fun acc file =>
      if !(jsTruthy file.isDirectory) then do
        let base ← apiTsPathBasename file.path
        pure (acc ++ [fileModule server file base])
      else
        pure acc)
    ([] : List Module)
  pure (modModules ++ fileModules)

/-- PostgreSQL LIKE matching on explicit character lists, with `%` (any
sequence), `_` (any one character) and backslash escaping; `fuel` is a bound on
the recursion depth (each step consumes at least one character of the pattern
or of the subject, so `pattern.length + subject.length + 1` always suffices). -/
def sqlLikeAux : Nat → List Char → List Char → Bool
  | 0, _, _ => false
  | _ + 1, [], [] => true
  | fuel + 1, '%' :: ps, s =>
      sqlLikeAux fuel ps s ||
        (match s with
         | [] => false
         | _ :: s2 => sqlLikeAux fuel ('%' :: ps) s2)
  | fuel + 1, '_' :: ps, _ :: s2 => sqlLikeAux fuel ps s2
  | fuel + 1, '\\' :: c :: ps, d :: s2 => c == d && sqlLikeAux fuel ps s2
  | fuel + 1, c :: ps, d :: s2 => c == d && sqlLikeAux fuel ps s2
  | _ + 1, _, _ => false

/-- SQL `subject LIKE pattern` as used by the drizzle query in `getFiles`. -/
def sqlLike (pat subject : String) : Bool :=
  sqlLikeAux (pat.data.length + subject.data.length + 1) pat.data subject.data

/-- Embedding of `DatabaseStorage.getFiles` (src/server/api.ts lines 332-342).
With a truthy filter path the drizzle call is
`and(eq(files.serverId, serverId), sql`path LIKE p + '/%' OR path = p`)`;
drizzle joins the conditions with `and` and parenthesizes only the whole
conjunction, and the raw fragment carries no parentheses of its own, so the
emitted SQL is `(server_id = s and path like p || '/%' or path = p)`.  SQL
gives `AND` higher precedence than `OR`, hence the row predicate is
`(serverId = s AND path LIKE p+'/%') OR path = p`.  A null, undefined or empty
filter path is falsy in `if (path)`, selecting the unfiltered branch. -/
def getFiles (serverId : String) (pathFilter : Option String) (db : Db) : List File :=
  match pathFilter with
  | some p =>
      if p = "" then
        db.files.filter (fun f => f.serverId == serverId)
      else
        db.files.filter (fun f =>
          (f.serverId == serverId && sqlLike (p ++ "/%") f.path) || f.path == p)
  | none => db.files.filter (fun f => f.serverId == serverId)

/-- Embedding of `DatabaseStorage.getApiConfig` (src/server/api.ts lines
433-436): the first row of the table, if any. -/
def getApiConfig (db : Db) : Option ApiConfig := db.apiConfig.head?

/-- Embedding of `DatabaseStorage.getServer` (src/server/api.ts lines 227-230). -/
def getServer (id : String) (db : Db) : Option Server :=
  (db.servers.filter (fun s => s.serverId == id)).head?

/-- Embedding of `DatabaseStorage.getMods` (src/server/api.ts lines 292-294). -/
def getMods (serverId : String) (db : Db) : List Mod :=
  db.mods.filter (fun m => m.serverId == serverId)

/-- Ascending insertion by server name, modeling `ORDER BY servers.name`. -/
def insertByName (s : Server) : List Server → List Server
  | [] => [s]
  | t :: ts => if s.name ≤ t.name then s :: t :: ts else t :: insertByName s ts

/-- Embedding of `DatabaseStorage.getServers` (src/server/api.ts lines 223-225):
all server rows ordered by name. -/
def getServers (db : Db) : List Server :=
  db.servers.foldr insertByName []

/-- Discord rich-presence block of the distribution document header
(src/server/api.ts lines 22-26). -/
structure DiscordPresence where
  clientId : String
  smallImageText : String
  smallImageKey : String
deriving DecidableEq, Repr

/-- One element of the `servers` array of the distribution document
(src/server/api.ts lines 34-50). -/
structure ServerEntry where
  id : String
  name : String
  description : String
  icon : String
  version : String
  address : String
  minecraftVersion : String
  discordShortId : String
  discordLargeImageText : String
  discordLargeImageKey : String
  mainServer : Option Bool
  autoconnect : Option Bool
  modules : List Module
deriving DecidableEq, Repr

/-- The distribution document (src/server/api.ts lines 19-52). -/
structure Distribution where
  version : String
  rss : String
  discord : DiscordPresence
  servers : List ServerEntry
deriving DecidableEq, Repr

/-- The per-server object built inside the `serverInstances.map` callback
(src/server/api.ts lines 27-51), for one server row. -/
def buildServerEntry (cfg : ApiConfig) (db : Db) (server : Server) :
    Except String ServerEntry := do
  let serverMods := getMods server.serverId db
  let modules ← transformModsToModules serverMods server (getFiles server.serverId none db)
  pure
    { id := server.serverId
      name := server.name
      description := jsOrStr server.description ""
      icon := jsOrStr server.icon ""
      version := server.version
      address := jsOrStr server.address ""
      minecraftVersion := server.minecraftVersion
      discordShortId := jsOrStr cfg.discordClientId ""
      discordLargeImageText := "logo"
      discordLargeImageKey := "logo_without_background"
      mainServer := server.mainServer
      autoconnect := server.autoconnect
      modules := modules }

/-- The awaited `Promise.all` over the per-server callbacks: every entry is
built, and any thrown error aborts the whole document. -/
def buildEntries (cfg : ApiConfig) (db : Db) : List Server → Except String (List ServerEntry)
  | [] => pure []
  | s :: rest => do
      let e ← buildServerEntry cfg db s
      let es ← buildEntries cfg db rest
      pure (e :: es)

/-- The distribution object literal (src/server/api.ts lines 19-52), given the
config row. -/
def buildDistribution (cfg : ApiConfig) (db : Db) : Except String Distribution := do
  let entries ← buildEntries cfg db (getServers db)
  pure
    { version := jsOrStr cfg.version "1.0.0"
      rss := jsOrStr cfg.rssUrl ""
      discord :=
        { clientId := jsOrStr cfg.discordClientId ""
          smallImageText := jsOrStr cfg.discordSmallImageText "logo"
          smallImageKey := jsOrStr cfg.discordSmallImageKey "logo" }
      servers := entries }

/-- Embedding of the `GET /api/distribution` handler (src/server/api.ts lines
7-59): a missing config row returns the early 500 with
`API configuration not found`; any error thrown while building the document is
caught by the surrounding try/catch and turned into the generic 500; otherwise
the document is sent. -/
def distributionHandler (db : Db) : Except (Nat × String) Distribution :=
  match getApiConfig db with
  | none => Except.error (500, "API configuration not found")
  | some cfg =>
      match buildDistribution cfg db with
      | Except.ok d => Except.ok d
      | Except.error _ => Except.error (500, "Failed to generate distribution.json")

/-- Insert shape accepted by `createMod` (drizzle-zod `insertModSchema`:
the mods columns minus id/createdAt/updatedAt).  A `none` in an optional field
means the field was omitted, so the column default applies on insert. -/
structure InsertMod where
  serverId : String
  modId : String
  name : String
  type : String
  version : Option String := none
  required : Option Bool := none
  enabled : Option Bool := none
  optionalDefault : Option Bool := none
  size : Option Int := none
  url : String
  md5 : Option String := none
deriving DecidableEq, Repr

/-- Embedding of `DatabaseStorage.createMod` (src/server/api.ts lines 301-310):
inserts one row with the next serial id, the column defaults for omitted
fields, and `updatedAt := now`; returns the stored row. -/
def createMod (ins : InsertMod) (now : Nat) (db : Db) : Db × Mod :=
  let row : Mod :=
    { id := db.nextId
      serverId := ins.serverId
      modId := ins.modId
      name := ins.name
      type := ins.type
      version := ins.version
      required := some (ins.required.getD true)
      enabled := some (ins.enabled.getD true)
      optionalDefault := some (ins.optionalDefault.getD false)
      size := ins.size
      url := ins.url
      md5 := ins.md5
      createdAt := now
      updatedAt := now }
  ({ db with mods := db.mods ++ [row], nextId := db.nextId + 1 }, row)

/-- Insert shape accepted by `createServer` (drizzle-zod `insertServerSchema`:
the servers columns minus id/createdAt/updatedAt). -/
structure InsertServer where
  serverId : String
  name : String
  description : Option String := none
  icon : Option String := none
  version : String
  address : Option String := none
  minecraftVersion : String
  loaderType : String
  loaderVersion : String
  mainServer : Option Bool := none
  autoconnect : Option Bool := none
deriving DecidableEq, Repr

/-- Embedding of `DatabaseStorage.createServer` (src/server/api.ts lines
232-270): inserts the server row, then inserts the two fixed default Library
mods through `createMod`, and returns the stored server row.  The three
inserts are sequential statements in the source; the embedding performs them
as one state transition. -/
def createServer (ins : InsertServer) (now : Nat) (db : Db) : Db × Server :=
  let srv : Server :=
    { id := db.nextId
      serverId := ins.serverId
      name := ins.name
      description := ins.description
      icon := ins.icon
      version := ins.version
      address := ins.address
      minecraftVersion := ins.minecraftVersion
      loaderType := ins.loaderType
      loaderVersion := ins.loaderVersion
      mainServer := some (ins.mainServer.getD false)
      autoconnect := some (ins.autoconnect.getD false)
      createdAt := now
      updatedAt := now }
  let db1 : Db := { db with servers := db.servers ++ [srv], nextId := db.nextId + 1 }
  let db2 := (createMod
    { serverId := srv.serverId
      modId := "net.fabricmc:fabric-loader:0.16.13"
      name := "Fabric"
      type := "Library"
      url := "https://maven.fabricmc.net/net/fabricmc/fabric-loader/0.16.13/fabric-loader-0.16.13.jar"
      required := some true } now db1).1
  let db3 := (createMod
    { serverId := srv.serverId
      modId := "net.fabricmc:intermediary:1.20.1"
      name := "Fabric Intermediary"
      type := "Library"
      url := "https://maven.fabricmc.net/net/fabricmc/intermediary/1.20.1/intermediary-1.20.1.jar"
      required := some true } now db2).1
  (db3, srv)

/-- Insert shape accepted by `createServerStat` (drizzle-zod
`insertServerStatSchema`: the server_stats columns minus id/timestamp). -/
structure InsertServerStat where
  serverId : String
  activePlayers : Option Int := none
  currentBandwidth : Option Int := none
  totalBandwidth : Option Int := none
  totalSessionTime : Option Int := none
deriving DecidableEq, Repr

/-- Embedding of `DatabaseStorage.createServerStat` (src/server/api.ts lines
388-394): inserts one stat row with the next serial id, column defaults 0 for
omitted counters and the default timestamp. -/
def createServerStat (ins : InsertServerStat) (now : Nat) (db : Db) : Db × ServerStat :=
  let row : ServerStat :=
    { id := db.nextId
      serverId := ins.serverId
      activePlayers := some (ins.activePlayers.getD 0)
      currentBandwidth := some (ins.currentBandwidth.getD 0)
      totalBandwidth := some (ins.totalBandwidth.getD 0)
      totalSessionTime := some (ins.totalSessionTime.getD 0)
      timestamp := now }
  ({ db with serverStats := db.serverStats ++ [row], nextId := db.nextId + 1 }, row)

/-- Embedding of the `POST /api/stats` handler (src/server/routes.ts lines
314-329) after body validation has succeeded: look the server up by the
reported serverId; absent means 404 with no insertion, present means a stat
row is inserted and returned with 201. -/
def postStatsHandler (stat : InsertServerStat) (now : Nat) (db : Db) :
    Nat × Option ServerStat × Db :=
  match getServer stat.serverId db with
  | none => (404, none, db)
  | some _ =>
      let (db2, row) := createServerStat stat now db
      (201, some row, db2)

/-- Insert shape accepted by `updateInstallerSettings` (drizzle-zod
`insertInstallerSettingsSchema`).  A `none` field was omitted from the update
object, so the spread leaves the stored value unchanged. -/
structure InsertInstallerSettings where
  isInstalled : Option Bool := none
  dbHost : Option String := none
  dbPort : Option String := none
  dbName : Option String := none
  dbUser : Option String := none
deriving DecidableEq, Repr

/-- Embedding of `DatabaseStorage.updateInstallerSettings` (src/server/api.ts
lines 402-425): read the first row; if present, update that row (by id) with
the provided fields and a fresh installedAt; otherwise insert a first row. -/
def updateInstallerSettings (ins : InsertInstallerSettings) (now : Nat) (db : Db) : Db :=
  match db.installerSettings.head? with
  | some ex =>
      { db with installerSettings := db.installerSettings.map (fun r =>
          if r.id = ex.id then
            { r with
              isInstalled := ins.isInstalled.or r.isInstalled
              dbHost := ins.dbHost.or r.dbHost
              dbPort := ins.dbPort.or r.dbPort
              dbName := ins.dbName.or r.dbName
              dbUser := ins.dbUser.or r.dbUser
              installedAt := some now }
          else r) }
  | none =>
      { db with
        installerSettings := db.installerSettings ++
          [{ id := db.nextId
             isInstalled := some (ins.isInstalled.getD false)
             dbHost := ins.dbHost
             dbPort := ins.dbPort
             dbName := ins.dbName
             dbUser := ins.dbUser
             installedAt := some now }]
        nextId := db.nextId + 1 }

/-- Insert shape accepted by `updateApiConfig` (drizzle-zod
`insertApiConfigSchema`). -/
structure InsertApiConfig where
  rssUrl : Option String := none
  discordClientId : Option String := none
  discordSmallImageText : Option String := none
  discordSmallImageKey : Option String := none
  version : Option String := none
deriving DecidableEq, Repr

/-- Embedding of `DatabaseStorage.updateApiConfig` (src/server/api.ts lines
438-455): read the first row; if present, update that row (by id) with the
provided fields; otherwise insert a first row. -/
def updateApiConfig (ins : InsertApiConfig) (db : Db) : Db :=
  match db.apiConfig.head? with
  | some ex =>
      { db with apiConfig := db.apiConfig.map (fun r =>
          if r.id = ex.id then
            { r with
              rssUrl := ins.rssUrl.or r.rssUrl
              discordClientId := ins.discordClientId.or r.discordClientId
              discordSmallImageText := ins.discordSmallImageText.or r.discordSmallImageText
              discordSmallImageKey := ins.discordSmallImageKey.or r.discordSmallImageKey
              version := ins.version.or r.version }
          else r) }
  | none =>
      { db with
        apiConfig := db.apiConfig ++
          [{ id := db.nextId
             rssUrl := ins.rssUrl
             discordClientId := ins.discordClientId
             discordSmallImageText := ins.discordSmallImageText
             discordSmallImageKey := ins.discordSmallImageKey
             version := some (ins.version.getD "1.0.0") }]
        nextId := db.nextId + 1 }

/-- Insert shape accepted by `updateSiteSettings` (drizzle-zod
`insertSiteSettingsSchema`). -/
structure InsertSiteSettings where
  siteName : Option String := none
  siteUrl : Option String := none
  logoUrl : Option String := none
  maintenanceMode : Option Bool := none
  enableRegistration : Option Bool := none
deriving DecidableEq, Repr

/-- Embedding of `DatabaseStorage.updateSiteSettings` (src/server/api.ts lines
463-486): read the first row; if present, update that row (by id) with the
provided fields and a fresh updatedAt; otherwise insert a first row. -/
def updateSiteSettings (ins : InsertSiteSettings) (now : Nat) (db : Db) : Db :=
  match db.siteSettings.head? with
  | some ex =>
      { db with siteSettings := db.siteSettings.map (fun r =>
          if r.id = ex.id then
            { r with
              siteName := ins.siteName.or r.siteName
              siteUrl := ins.siteUrl.or r.siteUrl
              logoUrl := ins.logoUrl.or r.logoUrl
              maintenanceMode := ins.maintenanceMode.or r.maintenanceMode
              enableRegistration := ins.enableRegistration.or r.enableRegistration
              updatedAt := now }
          else r) }
  | none =>
      { db with
        siteSettings := db.siteSettings ++
          [{ id := db.nextId
             siteName := some (ins.siteName.getD "MineLaunch Admin Panel")
             siteUrl := some (ins.siteUrl.getD "https://admin.minelauncher.com")
             logoUrl := ins.logoUrl
             maintenanceMode := some (ins.maintenanceMode.getD false)
             enableRegistration := some (ins.enableRegistration.getD true)
             updatedAt := now }]
        nextId := db.nextId + 1 }

/-- Embedding of `DatabaseStorage.updateLogo` (src/server/api.ts lines
488-511): read the first site-settings row; if present, set its logoUrl and
updatedAt; otherwise insert a first row holding only the logo. -/
def updateLogo (logoUrl : String) (now : Nat) (db : Db) : Db :=
  match db.siteSettings.head? with
  | some ex =>
      { db with siteSettings := db.siteSettings.map (fun r =>
          if r.id = ex.id then { r with logoUrl := some logoUrl, updatedAt := now }
          else r) }
  | none =>
      { db with
        siteSettings := db.siteSettings ++
          [{ id := db.nextId
             siteName := some "MineLaunch Admin Panel"
             siteUrl := some "https://admin.minelauncher.com"
             logoUrl := some logoUrl
             maintenanceMode := some false
             enableRegistration := some true
             updatedAt := now }]
        nextId := db.nextId + 1 }

/-- One sequential call against the singleton settings tables: the four
storage operations that write installer settings, API config or site
settings. -/
inductive SettingsOp where
  | installer (ins : InsertInstallerSettings) (now : Nat)
  | apiCfg (ins : InsertApiConfig)
  | site (ins : InsertSiteSettings) (now : Nat)
  | logo (url : String) (now : Nat)
deriving Repr

/-- Apply one settings call to the state. -/
def applySettingsOp (db : Db) (op : SettingsOp) : Db :=
  match op with
  | SettingsOp.installer ins now => updateInstallerSettings ins now db
  | SettingsOp.apiCfg ins => updateApiConfig ins db
  | SettingsOp.site ins now => updateSiteSettings ins now db
  | SettingsOp.logo url now => updateLogo url now db

/-- Run a sequential (non-concurrent) sequence of settings calls. -/
def runSettingsOps (db : Db) (ops : List SettingsOp) : Db :=
  ops.foldl applySettingsOp db

/-- Each of the three singleton settings tables holds at most one row. -/
def singletonInv (db : Db) : Prop :=
  db.installerSettings.length ≤ 1 ∧ db.apiConfig.length ≤ 1 ∧ db.siteSettings.length ≤ 1

instance (db : Db) : Decidable (singletonInv db) := by
  unfold singletonInv; infer_instance

/-- Scheduler events observable by one stats WebSocket connection after the
`wss.on("connection")` handler (src/server/routes.ts lines 31-64) has run: a
5-second interval tick (carrying whether the socket currently reports
readyState OPEN and whether the snapshot send attempted on this tick fails),
the socket close event, and the socket error event. -/
inductive WsEvent where
  | tick (isOpen : Bool) (sendFails : Bool)
  | closeEvt
  | errorEvt
deriving DecidableEq, Repr

/-- One event step of the per-connection loop.  The state is whether the
interval timer is still armed; the returned number counts snapshot sends
initiated by the step.  On a tick (which fires only while the timer is armed)
the callback checks readyState: if OPEN it calls `sendCurrentStats`, whose
body is wrapped in its own try/catch that logs and swallows every failure
(src/server/routes.ts lines 482-509) — `sendCurrentStats` is `async`, so the
call in the tick callback also never throws synchronously, and the callback
catch that would clear the interval is unreachable; if not OPEN the callback
clears the interval.  The close and error handlers clear the interval. -/
def wsStep (armed : Bool) (e : WsEvent) : Bool × Nat :=
  match e with
  | WsEvent.tick isOpen _ =>
      if armed then
        if isOpen then (true, 1) else (false, 0)
      else (false, 0)
  | WsEvent.closeEvt => (false, 0)
  | WsEvent.errorEvt => (false, 0)

/-- Run the per-connection loop over a list of events, counting snapshot sends. -/
def wsRun : Bool → List WsEvent → Bool × Nat
  | a, [] => (a, 0)
  | a, e :: es =>
      ((wsRun (wsStep a e).1 es).1, (wsStep a e).2 + (wsRun (wsStep a e).1 es).2)

/-- Total snapshot sends initiated for one connection whose lifetime sees the
given events: the connection handler sends one snapshot immediately
(src/server/routes.ts line 36) and then arms the interval timer. -/
def connSends (evs : List WsEvent) : Nat :=
  1 + (wsRun true evs).2

/-- Replace the stored url column of a mod row, leaving all other columns. -/
def setModUrl (u : String) (m : Mod) : Mod := { m with url := u }

/-- Replace the stored url column of every mod row in the database. -/
def setModUrls (u : String) (db : Db) : Db :=
  { db with mods := db.mods.map (setModUrl u) }

/-! ## Sample rows used by concrete witnesses and counterexamples -/

/-- A concrete server row. -/
def sampleServer : Server :=
  { id := 1, serverId := "s1", name := "Alpha", description := none, icon := none,
    version := "1.0.0", address := none, minecraftVersion := "1.20.1",
    loaderType := "Fabric", loaderVersion := "0.16.13", mainServer := some false,
    autoconnect := some false, createdAt := 0, updatedAt := 0 }

/-- A non-directory file row of server s1. -/
def c1FileRow : File :=
  { id := 10, serverId := "s1", path := "config/settings.json",
    isDirectory := some false, isSticky := some false, size := some 42, lastModified := 0 }

/-- A directory file row of server s1. -/
def c1DirRow : File :=
  { id := 11, serverId := "s1", path := "config",
    isDirectory := some true, isSticky := some false, size := some 0, lastModified := 0 }

/-- A mod row whose nullable required column holds SQL NULL.  The column is
declared `boolean("required").default(true)` with no NOT NULL constraint, and
`insertModSchema` marks the field `.nullable()`, so `POST /api/mods` or
`PATCH /api/mods/:id` with `required: null` stores exactly this row. -/
def c2ModNull : Mod :=
  { id := 30, serverId := "s1", modId := "com.example:x:1", name := "X",
    type := "FabricMod", version := none, required := none, enabled := some true,
    optionalDefault := some false, size := none, url := "https://example.com/x.jar",
    md5 := none, createdAt := 0, updatedAt := 0 }

/-- A file row of server s2 whose path is exactly the filter value used below. -/
def c4OtherServerFile : File :=
  { id := 20, serverId := "s2", path := "a/b",
    isDirectory := some false, isSticky := some false, size := some 1, lastModified := 0 }

/-- A database holding only the s2 file row. -/
def c4Db : Db := { files := [c4OtherServerFile] }

/-- A database holding one server row, for the stats-ingestion witness. -/
def c6Db : Db := { servers := [sampleServer], nextId := 5 }

/-- An api_config row with every rss/discord field NULL. -/
def c7CfgUnset : ApiConfig :=
  { id := 1, rssUrl := none, discordClientId := none, discordSmallImageText := none,
    discordSmallImageKey := none, version := none }

/-- A database holding only the all-NULL config row. -/
def c7Db : Db := { apiConfig := [c7CfgUnset] }

/-- The document the distribution endpoint produces from `c7Db`. -/
def c7Doc : Distribution :=
  { version := "1.0.0", rss := "",
    discord := { clientId := "", smallImageText := "logo", smallImageKey := "logo" },
    servers := [] }

/-- A mod row with required=true, for the amended-C2 witness. -/
def c2ModReq : Mod :=
  { id := 31, serverId := "s1", modId := "com.example:y:1", name := "Y",
    type := "FabricMod", version := none, required := some true, enabled := some true,
    optionalDefault := some true, size := none, url := "https://example.com/y.jar",
    md5 := none, createdAt := 0, updatedAt := 0 }

/-- A sample insert payload for the createServer witness. -/
def c3Ins : InsertServer :=
  { serverId := "w1", name := "Witness", version := "1.0.0",
    minecraftVersion := "1.20.1", loaderType := "Fabric", loaderVersion := "0.16.13" }

/-- A sample sequence of singleton-settings calls. -/
def c5Ops : List SettingsOp :=
  [SettingsOp.logo "/uploads/logo.png" 5,
   SettingsOp.apiCfg {},
   SettingsOp.site {} 6,
   SettingsOp.installer {} 7,
   SettingsOp.logo "/uploads/logo2.png" 8,
   SettingsOp.apiCfg { rssUrl := some "https://example.com/rss" }]

/-! ## Helper lemmas -/

/-- Each of the four singleton-settings calls preserves the at-most-one-row
bound on every singleton table. -/
lemma applySettingsOp_inv (db : Db) (op : SettingsOp) (h : singletonInv db) :
    singletonInv (applySettingsOp db op) := by
  obtain ⟨h1, h2, h3⟩ := h
  cases op with
  | installer ins now =>
      cases hl : db.installerSettings with
      | nil =>
          simp [applySettingsOp, updateInstallerSettings, singletonInv, hl, h2, h3]
      | cons x xs =>
          have h1x : (x :: xs).length ≤ 1 := hl ▸ h1
          have hx : xs = [] := by simpa using h1x
          simp [applySettingsOp, updateInstallerSettings, singletonInv, hl,
            List.length_map, hx, h2, h3]
  | apiCfg ins =>
      cases hl : db.apiConfig with
      | nil =>
          simp [applySettingsOp, updateApiConfig, singletonInv, hl, h1, h3]
      | cons x xs =>
          have h2x : (x :: xs).length ≤ 1 := hl ▸ h2
          have hx : xs = [] := by simpa using h2x
          simp [applySettingsOp, updateApiConfig, singletonInv, hl,
            List.length_map, h1, hx, h3]
  | site ins now =>
      cases hl : db.siteSettings with
      | nil =>
          simp [applySettingsOp, updateSiteSettings, singletonInv, hl, h1, h2]
      | cons x xs =>
          have h3x : (x :: xs).length ≤ 1 := hl ▸ h3
          have hx : xs = [] := by simpa using h3x
          simp [applySettingsOp, updateSiteSettings, singletonInv, hl,
            List.length_map, h1, h2, hx]
  | logo url now =>
      cases hl : db.siteSettings with
      | nil =>
          simp [applySettingsOp, updateLogo, singletonInv, hl, h1, h2]
      | cons x xs =>
          have h3x : (x :: xs).length ≤ 1 := hl ▸ h3
          have hx : xs = [] := by simpa using h3x
          simp [applySettingsOp, updateLogo, singletonInv, hl,
            List.length_map, h1, h2, hx]

/-- A step with an unarmed timer fires nothing and stays unarmed. -/
lemma wsStep_false (e : WsEvent) : wsStep false e = (false, 0) := by
  cases e <;> rfl

/-- With the timer unarmed no event ever sends, and the timer never rearms. -/
lemma wsRun_false (evs : List WsEvent) : wsRun false evs = (false, 0) := by
  induction evs with
  | nil => rfl
  | cons e es ih => simp [wsRun, wsStep_false, ih]

/-- Event runs compose: the second segment starts from the state the first
segment ends in, and send counts add. -/
lemma wsRun_append (a : Bool) (xs ys : List WsEvent) :
    wsRun a (xs ++ ys) =
      ((wsRun (wsRun a xs).1 ys).1, (wsRun a xs).2 + (wsRun (wsRun a xs).1 ys).2) := by
  induction xs generalizing a with
  | nil => simp [wsRun]
  | cons e es ih => simp [wsRun, ih, Nat.add_assoc]

/-- After the socket close event the timer is no longer armed. -/
lemma wsRun_after_close (a : Bool) (evs : List WsEvent) :
    (wsRun a (evs ++ [WsEvent.closeEvt])).1 = false := by
  simp [wsRun_append, wsRun, wsStep]

/-- After the socket error event the timer is no longer armed. -/
lemma wsRun_after_error (a : Bool) (evs : List WsEvent) :
    (wsRun a (evs ++ [WsEvent.errorEvt])).1 = false := by
  simp [wsRun_append, wsRun, wsStep]

/-- Mapping the url replacement over mod rows commutes with the serverId
filter of `getMods`, because the replacement leaves serverId unchanged. -/
lemma filter_setModUrl (u sid : String) (l : List Mod) :
    (l.map (setModUrl u)).filter (fun m => m.serverId == sid) =
      (l.filter (fun m => m.serverId == sid)).map (setModUrl u) := by
  induction l with
  | nil => rfl
  | cons m ms ih =>
      simp only [List.map_cons, List.filter_cons]
      cases h : m.serverId == sid <;> simp [setModUrl, h, ih]

/-- `getMods` against the url-rewritten database. -/
lemma getMods_setModUrls (sid u : String) (db : Db) :
    getMods sid (setModUrls u db) = (getMods sid db).map (setModUrl u) :=
  filter_setModUrl u sid db.mods

/-- The manifest entry of a mod does not depend on the stored url column. -/
lemma modToModule_setModUrl (server : Server) (u : String) (m : Mod) :
    modToModule server (setModUrl u m) = modToModule server m := rfl

/-- `transformModsToModules` is invariant under rewriting the stored urls. -/
lemma transform_setModUrl (server : Server) (u : String) (mods : List Mod)
    (files : List File) :
    transformModsToModules (mods.map (setModUrl u)) server files =
      transformModsToModules mods server files := by
  unfold transformModsToModules
  have h : (mods.map (setModUrl u)).map (modToModule server) =
      mods.map (modToModule server) := by
    rw [List.map_map]
    exact List.map_congr_left (fun m _ => modToModule_setModUrl server u m)
  rw [h]

/-- `getFiles` does not look at the mods table. -/
lemma getFiles_setModUrls (sid : String) (pf : Option String) (u : String) (db : Db) :
    getFiles sid pf (setModUrls u db) = getFiles sid pf db := rfl

/-- A per-server manifest entry is invariant under rewriting the stored urls. -/
lemma buildServerEntry_setModUrls (cfg : ApiConfig) (u : String) (db : Db)
    (server : Server) :
    buildServerEntry cfg (setModUrls u db) server = buildServerEntry cfg db server := by
  simp only [buildServerEntry, getMods_setModUrls, getFiles_setModUrls, transform_setModUrl]

/-- The whole entries list is invariant under rewriting the stored urls. -/
lemma buildEntries_setModUrls (cfg : ApiConfig) (u : String) (db : Db)
    (l : List Server) :
    buildEntries cfg (setModUrls u db) l = buildEntries cfg db l := by
  induction l with
  | nil => rfl
  | cons s rest ih => simp [buildEntries, buildServerEntry_setModUrls, ih]

/-! ## Claims -/

/-- C1.  The claim states that every non-directory File row of a server is
appended to the server modules list as a `File` artifact entry.  The code
cannot do this: `transformModsToModules` evaluates `path.basename(file.path)`
(src/server/api.ts line 91) in a module that never imports `path`, so the
first non-directory file row throws a ReferenceError and the distribution
endpoint answers 500 instead — no file entry is ever emitted.  Directory rows
are skipped before the broken expression, so a directory-only list survives
and indeed appends nothing. -/
theorem transform_throws_on_file_row :
    transformModsToModules [] sampleServer [c1FileRow] =
      Except.error "ReferenceError: path is not defined" ∧
    transformModsToModules [] sampleServer [c1DirRow] = Except.ok [] :=
  ⟨rfl, rfl⟩

/-- C2, counterexample.  The claim says a mod entry carries the optional
marker if and only if the required flag is false.  The mod row `c2ModNull`
stores SQL NULL in the nullable required column (reachable through the API,
see `c2ModNull`), the JavaScript guard `!mod.required` treats NULL as falsy,
and the entry carries the marker even though the flag is not false. -/
theorem marker_on_null_required :
    (modToModule sampleServer c2ModNull).requiredMarker = some false ∧
    c2ModNull.required = none :=
  ⟨rfl, rfl⟩

/-- C2, amended.  A mod entry carries the optional marker
`required: { value: false }` if and only if the required flag is not true
(false or NULL); a required=true mod omits the marker entirely, the marker
never appears with value true, and the marker is independent of the
optionalDefault column. -/
theorem marker_iff_not_required (server : Server) (mod : Mod) :
    (((modToModule server mod).requiredMarker).isSome ↔
      (mod.required = none ∨ mod.required = some false)) ∧
    (∀ b, (modToModule server { mod with optionalDefault := b }).requiredMarker =
      (modToModule server mod).requiredMarker) ∧
    ((modToModule server mod).requiredMarker = none ∨
      (modToModule server mod).requiredMarker = some false) := by
  refine ⟨?_, fun b => rfl, ?_⟩
  · unfold modToModule jsTruthy
    cases hr : mod.required with
    | none => simp
    | some b => cases b <;> simp
  · unfold modToModule jsTruthy
    cases hr : mod.required with
    | none => simp
    | some b => cases b <;> simp

/-- Witness for the amended C2: the required=true mod `c2ModReq` gets no
marker. -/
theorem marker_iff_not_required_witness :
    (modToModule sampleServer c2ModReq).requiredMarker = none ∨
    (modToModule sampleServer c2ModReq).requiredMarker = some false :=
  (marker_iff_not_required sampleServer c2ModReq).2.2

/-- C3.  `createServer` returns a server row carrying the requested serverId
and appends to the mods table exactly two Library rows with required=true,
the fixed modIds `net.fabricmc:fabric-loader:0.16.13` and
`net.fabricmc:intermediary:1.20.1` and their fixed maven urls, both attached
to the new serverId; the embedding performs server insert and mod seeding as
one state transition. -/
theorem createServer_seeds_two_libraries (ins : InsertServer) (now : Nat) (db : Db) :
    (createServer ins now db).2.serverId = ins.serverId ∧
    (createServer ins now db).1.mods = db.mods ++
      [{ id := db.nextId + 1, serverId := ins.serverId,
         modId := "net.fabricmc:fabric-loader:0.16.13", name := "Fabric",
         type := "Library", version := none, required := some true,
         enabled := some true, optionalDefault := some false, size := none,
         url := "https://maven.fabricmc.net/net/fabricmc/fabric-loader/0.16.13/fabric-loader-0.16.13.jar",
         md5 := none, createdAt := now, updatedAt := now },
       { id := db.nextId + 2, serverId := ins.serverId,
         modId := "net.fabricmc:intermediary:1.20.1", name := "Fabric Intermediary",
         type := "Library", version := none, required := some true,
         enabled := some true, optionalDefault := some false, size := none,
         url := "https://maven.fabricmc.net/net/fabricmc/intermediary/1.20.1/intermediary-1.20.1.jar",
         md5 := none, createdAt := now, updatedAt := now }] := by
  refine ⟨rfl, ?_⟩
  simp [createServer, createMod]

/-- Witness for C3: creating server w1 in the empty database yields a server
row with serverId w1 and exactly two seeded mod rows. -/
theorem createServer_seeds_two_libraries_witness :
    (createServer c3Ins 7 ({} : Db)).2.serverId = "w1" ∧
    (createServer c3Ins 7 ({} : Db)).1.mods.length = 2 := by
  refine ⟨(createServer_seeds_two_libraries c3Ins 7 ({} : Db)).1, ?_⟩
  rw [(createServer_seeds_two_libraries c3Ins 7 ({} : Db)).2]
  rfl

/-- C4.  The claim states that `getFiles(s, p)` returns only rows of server s
(path equal to p or under p/).  The drizzle call wraps the raw fragment
`path LIKE p + '/%' OR path = p` in `and(eq(serverId, s), ...)` without
parenthesizing the fragment, and SQL precedence turns the predicate into
`(serverId = s AND path LIKE p+'/%') OR path = p`: the exact-match disjunct
ignores the server.  Concretely, with only a file of server s2 at path `a/b`
in the database, `getFiles "s1" "a/b"` returns that s2 row, which the claim
says must be excluded. -/
theorem getFiles_leaks_other_server_exact_match :
    getFiles "s1" (some "a/b") c4Db = [c4OtherServerFile] ∧
    c4OtherServerFile.serverId = "s2" :=
  ⟨by decide, rfl⟩

/-- C5.  Starting from a state where each singleton settings table holds at
most one row, any sequential sequence of updateInstallerSettings,
updateApiConfig, updateSiteSettings and updateLogo calls preserves that
bound: each call updates the existing first row if present and inserts a
first row otherwise. -/
theorem settings_ops_preserve_singleton (ops : List SettingsOp) (db : Db)
    (h : singletonInv db) : singletonInv (runSettingsOps db ops) := by
  induction ops generalizing db with
  | nil => exact h
  | cons op rest ih => exact ih (applySettingsOp db op) (applySettingsOp_inv db op h)

/-- Witness for C5: the empty database satisfies the invariant and so does the
state after a concrete six-call sequence. -/
theorem settings_ops_preserve_singleton_witness :
    singletonInv ({} : Db) ∧ singletonInv (runSettingsOps ({} : Db) c5Ops) :=
  ⟨by decide, settings_ops_preserve_singleton c5Ops ({} : Db) (by decide)⟩

/-- C6.  After successful validation, `POST /api/stats` with a serverId that
matches no server row answers 404 and leaves the whole database (in
particular the server_stats table) unchanged; with a matching serverId it
inserts exactly one stat row carrying that serverId and answers 201 with the
stored row. -/
theorem postStats_unknown_404_known_201 (stat : InsertServerStat) (now : Nat) (db : Db) :
    (getServer stat.serverId db = none →
      postStatsHandler stat now db = (404, none, db)) ∧
    (∀ srv, getServer stat.serverId db = some srv →
      (postStatsHandler stat now db).1 = 201 ∧
      (postStatsHandler stat now db).2.1 = some (createServerStat stat now db).2 ∧
      ((postStatsHandler stat now db).2.2).serverStats =
        db.serverStats ++ [(createServerStat stat now db).2] ∧
      (createServerStat stat now db).2.serverId = stat.serverId) := by
  constructor
  · intro h
    simp [postStatsHandler, h]
  · intro srv hg
    refine ⟨?_, ?_, ?_, rfl⟩ <;> simp [postStatsHandler, hg, createServerStat]

/-- Witness for C6: in a database holding only server s1, a report for the
unknown serverId `ghost` answers 404 and changes nothing, and a report for s1
answers 201 and appends one stat row. -/
theorem postStats_unknown_404_known_201_witness :
    postStatsHandler { serverId := "ghost" } 3 c6Db = (404, none, c6Db) ∧
    (postStatsHandler { serverId := "s1" } 3 c6Db).1 = 201 ∧
    ((postStatsHandler { serverId := "s1" } 3 c6Db).2.2).serverStats =
      c6Db.serverStats ++ [(createServerStat { serverId := "s1" } 3 c6Db).2] := by
  refine ⟨?_, ?_, ?_⟩
  · exact (postStats_unknown_404_known_201 { serverId := "ghost" } 3 c6Db).1 rfl
  · exact ((postStats_unknown_404_known_201 { serverId := "s1" } 3 c6Db).2 sampleServer rfl).1
  · exact
      ((postStats_unknown_404_known_201 { serverId := "s1" } 3 c6Db).2 sampleServer rfl).2.2.1

/-- C7.  With no api_config row the distribution endpoint answers the early
500 configuration error and emits no part of the document (the result type
carries either the error or a complete document, never both); with a config
row present whose rss and discord columns are NULL, any document the endpoint
emits carries the literal fallbacks: empty strings for rss and the discord
client id, and `logo`/`logo` for the two small-image fields. -/
theorem distribution_config_error_and_fallbacks (db : Db) :
    (getApiConfig db = none →
      distributionHandler db = Except.error (500, "API configuration not found")) ∧
    (∀ cfg entries, getApiConfig db = some cfg →
      cfg.rssUrl = none → cfg.discordClientId = none →
      cfg.discordSmallImageText = none → cfg.discordSmallImageKey = none →
      buildEntries cfg db (getServers db) = Except.ok entries →
      distributionHandler db = Except.ok
        { version := jsOrStr cfg.version "1.0.0"
          rss := ""
          discord := { clientId := "", smallImageText := "logo", smallImageKey := "logo" }
          servers := entries }) := by
  constructor
  · intro h
    simp [distributionHandler, h]
  · intro cfg entries hcfg h1 h2 h3 h4 hbe
    simp [distributionHandler, buildDistribution, hcfg, hbe, h1, h2, h3, h4, jsOrStr]

/-- Witness for C7: the empty database has no config row and produces the
configuration error; `c7Db` holds the all-NULL config row and the endpoint
produces exactly the fallback document `c7Doc`. -/
theorem distribution_config_error_and_fallbacks_witness :
    distributionHandler ({} : Db) = Except.error (500, "API configuration not found") ∧
    distributionHandler c7Db = Except.ok c7Doc := by
  constructor
  · exact (distribution_config_error_and_fallbacks ({} : Db)).1 rfl
  · exact (distribution_config_error_and_fallbacks c7Db).2 c7CfgUnset [] rfl rfl rfl rfl
      rfl rfl

/-- C8, counterexample.  The claim states that a failure while sending a
snapshot cancels the connection timer and that no further snapshot is sent
after a failed send.  In the code every failure inside `sendCurrentStats` is
caught and logged by its own try/catch, and the async call in the tick
callback never throws to the callback, so after a tick whose send fails the
timer is still armed and the next tick sends another snapshot: starting from
the armed state, a failing tick leaves the timer armed, and a second tick
brings the send count to 2 where the claim demands it stay at 1. -/
theorem failed_send_keeps_timer :
    (wsRun true [WsEvent.tick true true]).1 = true ∧
    (wsRun true [WsEvent.tick true true, WsEvent.tick true false]).2 = 2 := by
  decide

/-- C8, amended.  A failure while sending a snapshot is caught and logged
inside `sendCurrentStats` and is neither retried nor connection-fatal: it
does not cancel the timer, and subsequent ticks send again exactly as if the
send had succeeded.  The timer is cancelled only by the socket close event,
the socket error event, or a tick that finds the socket no longer open. -/
theorem send_failure_not_fatal :
    (∀ f, wsStep true (WsEvent.tick true f) = (true, 1)) ∧
    (∀ f evs, wsRun true (WsEvent.tick true f :: evs) =
      ((wsRun true evs).1, 1 + (wsRun true evs).2)) ∧
    wsStep true WsEvent.closeEvt = (false, 0) ∧
    wsStep true WsEvent.errorEvt = (false, 0) ∧
    (∀ f, wsStep true (WsEvent.tick false f) = (false, 0)) := by
  exact ⟨fun f => rfl, fun f evs => rfl, rfl, rfl, fun f => rfl⟩

/-- Witness for the amended C8: a tick with a failing send from the armed
state keeps the timer armed and counts one initiated send. -/
theorem send_failure_not_fatal_witness :
    wsStep true (WsEvent.tick true true) = (true, 1) :=
  send_failure_not_fatal.1 true

/-- C9.  A connection initiates exactly one snapshot send immediately; every
timer tick that fires while the socket is open initiates exactly one more,
independent of send failures; and from the socket close or error event on,
the timer is cancelled and no event whatsoever initiates another send. -/
theorem connection_snapshot_discipline :
    connSends [] = 1 ∧
    (∀ f evs, connSends (WsEvent.tick true f :: evs) = 1 + connSends evs) ∧
    (∀ evs evs2, connSends (evs ++ WsEvent.closeEvt :: evs2) =
      connSends (evs ++ [WsEvent.closeEvt])) ∧
    (∀ evs evs2, connSends (evs ++ WsEvent.errorEvt :: evs2) =
      connSends (evs ++ [WsEvent.errorEvt])) := by
  refine ⟨rfl, fun f evs => ?_, fun evs evs2 => ?_, fun evs evs2 => ?_⟩
  · simp [connSends, wsRun, wsStep, Nat.add_assoc]
  · have h : evs ++ WsEvent.closeEvt :: evs2 = (evs ++ [WsEvent.closeEvt]) ++ evs2 := by
      simp
    rw [h]
    unfold connSends
    rw [wsRun_append true (evs ++ [WsEvent.closeEvt]) evs2, wsRun_after_close, wsRun_false]
    simp
  · have h : evs ++ WsEvent.errorEvt :: evs2 = (evs ++ [WsEvent.errorEvt]) ++ evs2 := by
      simp
    rw [h]
    unfold connSends
    rw [wsRun_append true (evs ++ [WsEvent.errorEvt]) evs2, wsRun_after_error, wsRun_false]
    simp

/-- Witness for C9: with one open tick before the close event, events after
the close event add no sends. -/
theorem connection_snapshot_discipline_witness :
    connSends ([WsEvent.tick true false] ++ WsEvent.closeEvt :: [WsEvent.tick true false]) =
      connSends ([WsEvent.tick true false] ++ [WsEvent.closeEvt]) :=
  connection_snapshot_discipline.2.2.1 [WsEvent.tick true false] [WsEvent.tick true false]

/-- C10.  Every mod entry of the manifest carries the constructed download URL
`/uploads/` + serverId + `/mods/` + modId, and the stored url column of the
mods table is never used anywhere in the manifest: rewriting every stored mod
url to an arbitrary string leaves the entire distribution response
unchanged. -/
theorem mod_url_constructed_never_stored :
    (∀ server mod, (modToModule server mod).artifactUrl =
      "/uploads/" ++ server.serverId ++ "/mods/" ++ mod.modId) ∧
    (∀ u db, distributionHandler (setModUrls u db) = distributionHandler db) := by
  refine ⟨fun server mod => rfl, fun u db => ?_⟩
  have hc : getApiConfig (setModUrls u db) = getApiConfig db := rfl
  cases hcfg : getApiConfig db with
  | none => simp [distributionHandler, hc, hcfg]
  | some cfg =>
      have hb : buildDistribution cfg (setModUrls u db) = buildDistribution cfg db := by
        unfold buildDistribution
        have hs : getServers (setModUrls u db) = getServers db := rfl
        rw [hs, buildEntries_setModUrls]
      simp [distributionHandler, hc, hcfg, hb]

/-- Witness for C10: the manifest url of the NULL-required sample mod is the
constructed uploads path. -/
theorem mod_url_constructed_never_stored_witness :
    (modToModule sampleServer c2ModNull).artifactUrl =
      "/uploads/" ++ sampleServer.serverId ++ "/mods/" ++ c2ModNull.modId :=
  mod_url_constructed_never_stored.1 sampleServer c2ModNull

end LauncherAdmin
